import Mathlib

/-!
# ControllerCar: the rover control loop of `src/ArduRover/ControllerCar.h`

A shallow embedding of `apo::ControllerCar` and the properties of its
constructor, `manualLoop`, `autoLoop` and `setMotors`.

Modelling conventions.

* `float` values are idealised as elements of a linearly ordered field `α`
  (exact arithmetic, no rounding, no NaN).  Every definition is computable and
  evaluates at `α = ℚ`; `α = ℝ` is used where the constant `π / 180` is needed.
* `int` values (`RangeFinder::distance`, the orientation triple) are `Int`.
  The only `int` arithmetic in the class, `distanceToObstacle - 100`, is
  executed with `100 ≤ distanceToObstacle < 650`, so it cannot overflow.
* The loop counter `uint8_t i` of the constructor is a `Nat` reduced modulo
  `2 ^ 8` on increment.
* Collaborators declared outside the class (`BlockPID`, `BlockPIDDfb`,
  `AP_Guide`, `AP_Navigator`, `AP_RcChannel`, `RangeFinder::read`, the constants
  `deg2Rad` and `useForwardReverseSwitch`) are parameters.
-/

set_option linter.dupNamespace false

namespace apo

/-! ## Collaborators -/

/-- The fields of `RangeFinder` that `ControllerCar` reads: the mounting
orientation and the latched `distance`. -/
structure RangeFinder where
  orientation_x : Int
  orientation_y : Int
  orientation_z : Int
  distance : Int
  deriving DecidableEq, Repr

/-- The effect of `RangeFinder::read()` on the latched distance: `raw` is the
measurement the sensor delivers on this call. -/
def RangeFinder.read (rF : RangeFinder) (raw : Int) : RangeFinder :=
  { rF with distance := raw }

/-- What `autoLoop` asks of the guide. -/
structure AP_Guide (α : Type) where
  getHeadingError : α
  getGroundSpeedCommand : α

/-- What `autoLoop` asks of the navigator. -/
structure AP_Navigator (α : Type) where
  getYawRate : α
  getGroundSpeed : α

/-- The call `pidStr.update(input, derivative, dt)` of a `BlockPIDDfb`, taken as
an arbitrary function of its three arguments (the block's internal state at
the tick is part of the function). -/
abbrev BlockPIDDfb (α : Type) := α → α → α → α

/-- The call `pidThrust.update(input, dt)` of a `BlockPID`, taken as an
arbitrary function of its two arguments. -/
abbrev BlockPID (α : Type) := α → α → α

/-! ## Channel indices: `enum { ch_mode = 0, ch_str, ch_thrust, ch_FwdRev }` -/

def ch_mode : Nat := 0
def ch_str : Nat := 1
def ch_thrust : Nat := 2
def ch_FwdRev : Nat := 3

/-! ## The controller -/

/-- The attributes of `ControllerCar` that its loops read and write. -/
structure ControllerCar (α : Type) where
  _strCmd : α
  _thrustCmd : α
  _rangeFinderFront : Option RangeFinder

/-- The test of lines 46-47: orientation `(1, 0, 0)`. -/
def isFront (rF : RangeFinder) : Bool :=
  rF.orientation_x == 1 && rF.orientation_y == 0 && rF.orientation_z == 0

/-- One pass through the body of the constructor's `for` loop (lines 43-48)
for the entry `e` of the board's vector: a null entry is skipped, an entry
with orientation `(1, 0, 0)` replaces `_rangeFinderFront`. -/
def selectStep (front : Option RangeFinder) (e : Option RangeFinder) :
    Option RangeFinder :=
  match e with
  | none => front
  | some rF => if isFront rF then some rF else front

/-- The loop `for (uint8_t i = 0; i < getRangeFinders().getSize(); i++)` of the
constructor (lines 42-49), started at counter `i` with `_rangeFinderFront =
front`.  The counter is eight bits wide, so `i++` wraps at 256.  `fuel` bounds
the number of condition tests; `none` means the fuel ran out before the loop
condition failed. -/
def rangeFinderLoop (finders : List (Option RangeFinder)) :
    Nat → Nat → Option RangeFinder → Option (Option RangeFinder)
  | 0, _, _ => none
  | fuel + 1, i, front =>
    if i < finders.length then
      rangeFinderLoop finders fuel ((i + 1) % 256)
        (selectStep front (finders.getD i none))
    else
      some front

/-- Lines 54-59, `manualLoop`.  `radioPosition k` is
`getRadioChannels()[k]->getRadioPosition()`. -/
def ControllerCar.manualLoop {α : Type} [LinearOrderedField α]
    (c : ControllerCar α) (useForwardReverseSwitch : Bool)
    (radioPosition : Nat → α) (_dt : α) : ControllerCar α :=
  let c1 := { c with _strCmd := radioPosition ch_str }
  let c2 := { c1 with _thrustCmd := radioPosition ch_thrust }
  if useForwardReverseSwitch && decide (radioPosition ch_FwdRev < 0) then
    { c2 with _thrustCmd := -c2._thrustCmd }
  else
    c2

/-- The deviation angle of lines 80-81 in degrees,
`15 + 165 * (1 - ((float)(distanceToObstacle - 100)) / 550)`: the subtraction
is an `int` subtraction, the division a `float` division. -/
def deviationDeg {α : Type} [LinearOrderedField α] (distanceToObstacle : Int) : α :=
  15 + 165 * (1 - ((distanceToObstacle - 100 : Int) : α) / 550)

/-- Lines 60-87, `autoLoop`.  `raw` is the measurement that
`_rangeFinderFront->read()` latches when a front range finder is present. -/
def ControllerCar.autoLoop {α : Type} [LinearOrderedField α]
    (c : ControllerCar α) (deg2Rad : α)
    (pidStr : BlockPIDDfb α) (pidThrust : BlockPID α)
    (guide : AP_Guide α) (nav : AP_Navigator α) (raw : Int) (dt : α) :
    ControllerCar α :=
  let steering := pidStr guide.getHeadingError (-nav.getYawRate) dt
  let thrust := pidThrust (guide.getGroundSpeedCommand - nav.getGroundSpeed) dt
  match c._rangeFinderFront with
  | some rF =>
    let rF1 := rF.read raw
    let distanceToObstacle : Int := rF1.distance
    if distanceToObstacle < 100 then
      { _strCmd := steering, _thrustCmd := 0, _rangeFinderFront := some rF1 }
    else if distanceToObstacle < 650 then
      { _strCmd := steering + deviationDeg distanceToObstacle * deg2Rad,
        _thrustCmd := thrust, _rangeFinderFront := some rF1 }
    else
      { _strCmd := steering, _thrustCmd := thrust, _rangeFinderFront := some rF1 }
  | none =>
    { _strCmd := steering, _thrustCmd := thrust, _rangeFinderFront := none }

/-- Lines 88-91, `setMotors`.  `out k` is the position last handed to
`getRadioChannels()[k]->setPosition`; the result is that map after the two
calls.  The literal `0.1` is `1 / 10`. -/
def ControllerCar.setMotors {α : Type} [LinearOrderedField α]
    (c : ControllerCar α) (out : Nat → α) : Nat → α :=
  let out1 := Function.update out ch_str c._strCmd
  Function.update out1 ch_thrust (if |c._thrustCmd| < 1 / 10 then 0 else c._thrustCmd)

/-- The constructor `ControllerCar::ControllerCar` (lines 17-50) as far as the
attributes go: `_strCmd(0)`, `_thrustCmd(0)`, `_rangeFinderFront()` and then the
selection loop over the board's range finders (`none` is a null pointer in
the vector). -/
def ControllerCar.ControllerCar {α : Type} [Zero α] (fuel : Nat)
    (finders : List (Option RangeFinder)) : Option (ControllerCar α) :=
  (rangeFinderLoop finders fuel 0 none).map fun front =>
    { _strCmd := 0, _thrustCmd := 0, _rangeFinderFront := front }

/-! ## Sample inputs

The literal values of the end-to-end scenarios: `dt = 0.02`, a heading error
of `0.4`, a speed command of `2` at a ground speed of `1`, and proportional /
derivative gains `0.5` and `0.05`. -/

/-- A car with both commands at zero and a front range finder. -/
def sampleCar (α : Type) [LinearOrderedField α] : ControllerCar α :=
  { _strCmd := 0, _thrustCmd := 0, _rangeFinderFront := some ⟨1, 0, 0, 50⟩ }

/-- A car with both commands at zero and no front range finder. -/
def sampleCarNoFinder (α : Type) [LinearOrderedField α] : ControllerCar α :=
  { _strCmd := 0, _thrustCmd := 0, _rangeFinderFront := none }

/-- A steering block with gain `0.5` on its input and `0.05` on its
derivative argument. -/
def samplePidStr (α : Type) [LinearOrderedField α] : BlockPIDDfb α :=
  fun input derivative _ => 1 / 2 * input + 1 / 20 * derivative

/-- A thrust block with gain `0.5` on its input. -/
def samplePidThrust (α : Type) [LinearOrderedField α] : BlockPID α :=
  fun input _ => 1 / 2 * input

/-- Heading error `0.4`, ground speed command `2`. -/
def sampleGuide (α : Type) [LinearOrderedField α] : AP_Guide α :=
  { getHeadingError := 2 / 5, getGroundSpeedCommand := 2 }

/-- Yaw rate `yawRate`, ground speed `1`. -/
def sampleNav (α : Type) [LinearOrderedField α] (yawRate : α) : AP_Navigator α :=
  { getYawRate := yawRate, getGroundSpeed := 1 }

/-- Stick positions: steering `0.7`, thrust `0.3`, and the forward/reverse
channel at `fwdRev`. -/
def sampleSticks (fwdRev : ℚ) : Nat → ℚ :=
  fun k => if k = ch_str then 7 / 10 else if k = ch_thrust then 3 / 10
    else if k = ch_FwdRev then fwdRev else 0

end apo

namespace apo

variable {α : Type} [LinearOrderedField α]

/-! ## The auto loop -/

/-- C1. Hard stop: with a front range finder present and a reading below
100, `autoLoop` leaves the thrust command at exactly 0 and the steering command
at exactly the output of the steering block, and `setMotors` then writes 0 to
the thrust channel. -/
theorem autoLoop_hard_stop (c : ControllerCar α) (rF : RangeFinder) (deg2Rad : α)
    (pidStr : BlockPIDDfb α) (pidThrust : BlockPID α) (guide : AP_Guide α)
    (nav : AP_Navigator α) (d : Int) (dt : α) (out : Nat → α)
    (hfront : c._rangeFinderFront = some rF) (hd : d < 100) :
    (c.autoLoop deg2Rad pidStr pidThrust guide nav d dt)._thrustCmd = 0 ∧
    (c.autoLoop deg2Rad pidStr pidThrust guide nav d dt)._strCmd
      = pidStr guide.getHeadingError (-nav.getYawRate) dt ∧
    (c.autoLoop deg2Rad pidStr pidThrust guide nav d dt).setMotors out ch_thrust = 0 := by
  have h : c.autoLoop deg2Rad pidStr pidThrust guide nav d dt =
      { _strCmd := pidStr guide.getHeadingError (-nav.getYawRate) dt, _thrustCmd := 0,
        _rangeFinderFront := some (rF.read d) } := by
    simp [ControllerCar.autoLoop, hfront, RangeFinder.read, hd]
  rw [h]
  refine ⟨rfl, rfl, ?_⟩
  simp [ControllerCar.setMotors]

/-- C1 at a reading of 50 and of -3, on the sample inputs: thrust command 0,
steering command `0.5 * 0.4 = 0.2`, written thrust 0. -/
theorem autoLoop_hard_stop_witness :
    ((sampleCar ℚ).autoLoop (1 / 57) (samplePidStr ℚ) (samplePidThrust ℚ)
        (sampleGuide ℚ) (sampleNav ℚ 0) 50 (1 / 50))._thrustCmd = 0 ∧
    ((sampleCar ℚ).autoLoop (1 / 57) (samplePidStr ℚ) (samplePidThrust ℚ)
        (sampleGuide ℚ) (sampleNav ℚ 0) 50 (1 / 50))._strCmd = 1 / 5 ∧
    ((sampleCar ℚ).autoLoop (1 / 57) (samplePidStr ℚ) (samplePidThrust ℚ)
        (sampleGuide ℚ) (sampleNav ℚ 0) (-3) (1 / 50)).setMotors (fun _ => 1) ch_thrust = 0 := by
  have h50 := autoLoop_hard_stop (sampleCar ℚ) ⟨1, 0, 0, 50⟩ (1 / 57) (samplePidStr ℚ)
    (samplePidThrust ℚ) (sampleGuide ℚ) (sampleNav ℚ 0) 50 (1 / 50) (fun _ => 1) rfl (by decide)
  have hneg := autoLoop_hard_stop (sampleCar ℚ) ⟨1, 0, 0, 50⟩ (1 / 57) (samplePidStr ℚ)
    (samplePidThrust ℚ) (sampleGuide ℚ) (sampleNav ℚ 0) (-3) (1 / 50) (fun _ => 1) rfl (by decide)
  refine ⟨h50.1, ?_, hneg.2.2⟩
  rw [h50.2.1]
  norm_num [samplePidStr, sampleGuide, sampleNav]

/-- C2. Avoidance bias: with a front range finder present and a reading `d`
with `100 ≤ d < 650`, `autoLoop` sets the steering command to the steering
block's output plus `(15 + 165 * (1 - (d - 100) / 550)) * deg2Rad`, the division
taken in the field, and leaves the thrust command at the thrust block's
output. -/
theorem autoLoop_avoidance_bias (c : ControllerCar α) (rF : RangeFinder) (deg2Rad : α)
    (pidStr : BlockPIDDfb α) (pidThrust : BlockPID α) (guide : AP_Guide α)
    (nav : AP_Navigator α) (d : Int) (dt : α)
    (hfront : c._rangeFinderFront = some rF) (hlo : 100 ≤ d) (hhi : d < 650) :
    (c.autoLoop deg2Rad pidStr pidThrust guide nav d dt)._strCmd
      = pidStr guide.getHeadingError (-nav.getYawRate) dt
        + (15 + 165 * (1 - ((d : α) - 100) / 550)) * deg2Rad ∧
    (c.autoLoop deg2Rad pidStr pidThrust guide nav d dt)._thrustCmd
      = pidThrust (guide.getGroundSpeedCommand - nav.getGroundSpeed) dt := by
  have h1 : ¬ d < 100 := not_lt.mpr hlo
  simp [ControllerCar.autoLoop, hfront, RangeFinder.read, h1, hhi, deviationDeg]

/-- C2 at `d = 375` with `deg2Rad = π / 180`: the steering command is the
block's output `0.2` plus 97.5 degrees in radians; the thrust command is the
block's output `0.5`. -/
theorem autoLoop_avoidance_bias_witness :
    ((sampleCar ℝ).autoLoop (Real.pi / 180) (samplePidStr ℝ) (samplePidThrust ℝ)
        (sampleGuide ℝ) (sampleNav ℝ 0) 375 (1 / 50))._strCmd
      = 1 / 5 + 195 / 2 * (Real.pi / 180) ∧
    ((sampleCar ℝ).autoLoop (Real.pi / 180) (samplePidStr ℝ) (samplePidThrust ℝ)
        (sampleGuide ℝ) (sampleNav ℝ 0) 375 (1 / 50))._thrustCmd = 1 / 2 := by
  have h := autoLoop_avoidance_bias (sampleCar ℝ) ⟨1, 0, 0, 50⟩ (Real.pi / 180)
    (samplePidStr ℝ) (samplePidThrust ℝ) (sampleGuide ℝ) (sampleNav ℝ 0) 375 (1 / 50)
    rfl (by decide) (by decide)
  rw [h.1, h.2]
  constructor <;> norm_num [samplePidStr, samplePidThrust, sampleGuide, sampleNav]

/-- C3. No override outside the avoidance range: with no front range finder,
or with a reading of at least 650, `autoLoop` leaves the steering command at
exactly the steering block's output and the thrust command at exactly the
thrust block's output. -/
theorem autoLoop_no_override (c : ControllerCar α) (deg2Rad : α)
    (pidStr : BlockPIDDfb α) (pidThrust : BlockPID α) (guide : AP_Guide α)
    (nav : AP_Navigator α) (d : Int) (dt : α)
    (h : c._rangeFinderFront = none ∨ 650 ≤ d) :
    (c.autoLoop deg2Rad pidStr pidThrust guide nav d dt)._strCmd
      = pidStr guide.getHeadingError (-nav.getYawRate) dt ∧
    (c.autoLoop deg2Rad pidStr pidThrust guide nav d dt)._thrustCmd
      = pidThrust (guide.getGroundSpeedCommand - nav.getGroundSpeed) dt := by
  rcases hf : c._rangeFinderFront with _ | rF
  · simp [ControllerCar.autoLoop, hf]
  · rcases h with h | h
    · simp [hf] at h
    · have h1 : ¬ d < 100 := by omega
      have h2 : ¬ d < 650 := by omega
      simp [ControllerCar.autoLoop, hf, RangeFinder.read, h1, h2]

/-- C3 on the sample inputs: a reading of 1000 with a front finder, and a
reading of 50 without one, both give steering `0.2` and thrust `0.5`. -/
theorem autoLoop_no_override_witness :
    ((sampleCar ℚ).autoLoop (1 / 57) (samplePidStr ℚ) (samplePidThrust ℚ)
        (sampleGuide ℚ) (sampleNav ℚ 0) 1000 (1 / 50))._strCmd = 1 / 5 ∧
    ((sampleCar ℚ).autoLoop (1 / 57) (samplePidStr ℚ) (samplePidThrust ℚ)
        (sampleGuide ℚ) (sampleNav ℚ 0) 1000 (1 / 50))._thrustCmd = 1 / 2 ∧
    ((sampleCarNoFinder ℚ).autoLoop (1 / 57) (samplePidStr ℚ) (samplePidThrust ℚ)
        (sampleGuide ℚ) (sampleNav ℚ 0) 50 (1 / 50))._strCmd = 1 / 5 ∧
    ((sampleCarNoFinder ℚ).autoLoop (1 / 57) (samplePidStr ℚ) (samplePidThrust ℚ)
        (sampleGuide ℚ) (sampleNav ℚ 0) 50 (1 / 50))._thrustCmd = 1 / 2 := by
  have hfar := autoLoop_no_override (sampleCar ℚ) (1 / 57) (samplePidStr ℚ)
    (samplePidThrust ℚ) (sampleGuide ℚ) (sampleNav ℚ 0) 1000 (1 / 50) (Or.inr (by decide))
  have hnone := autoLoop_no_override (sampleCarNoFinder ℚ) (1 / 57) (samplePidStr ℚ)
    (samplePidThrust ℚ) (sampleGuide ℚ) (sampleNav ℚ 0) 50 (1 / 50) (Or.inl rfl)
  rw [hfar.1, hfar.2, hnone.1, hnone.2]
  norm_num [samplePidStr, samplePidThrust, sampleGuide, sampleNav]

/-! ## Writing the motors -/

/-- C4. Thrust deadband on write: `setMotors` writes exactly 0 to the thrust
channel when the thrust command has magnitude below 0.1, writes the thrust
command unchanged when its magnitude is at least 0.1 (the boundary included),
and writes the steering command unchanged to the steering channel. -/
theorem setMotors_deadband (c : ControllerCar α) (out : Nat → α) :
    (|c._thrustCmd| < 1 / 10 → c.setMotors out ch_thrust = 0) ∧
    (1 / 10 ≤ |c._thrustCmd| → c.setMotors out ch_thrust = c._thrustCmd) ∧
    c.setMotors out ch_str = c._strCmd := by
  refine ⟨fun h => ?_, fun h => ?_, ?_⟩
  · simp only [ControllerCar.setMotors, Function.update_same, if_pos h]
  · have h1 : ¬ |c._thrustCmd| < 1 / 10 := not_lt.mpr h
    simp only [ControllerCar.setMotors, Function.update_same, if_neg h1]
  · simp [ControllerCar.setMotors, ch_str, ch_thrust, Function.update]

/-- C4 at thrust commands `0.05`, `-0.09`, `0.1`, `-0.1` and `0.3` with a
steering command of `5`: the first two are written as 0, the others unchanged,
and the steering is written as `5`. -/
theorem setMotors_deadband_witness :
    (⟨5, 1 / 20, none⟩ : ControllerCar ℚ).setMotors (fun _ => 1) ch_thrust = 0 ∧
    (⟨5, -9 / 100, none⟩ : ControllerCar ℚ).setMotors (fun _ => 1) ch_thrust = 0 ∧
    (⟨5, 1 / 10, none⟩ : ControllerCar ℚ).setMotors (fun _ => 1) ch_thrust = 1 / 10 ∧
    (⟨5, -1 / 10, none⟩ : ControllerCar ℚ).setMotors (fun _ => 1) ch_thrust = -1 / 10 ∧
    (⟨5, 3 / 10, none⟩ : ControllerCar ℚ).setMotors (fun _ => 1) ch_thrust = 3 / 10 ∧
    (⟨5, 3 / 10, none⟩ : ControllerCar ℚ).setMotors (fun _ => 1) ch_str = 5 :=
  ⟨(setMotors_deadband ⟨5, 1 / 20, none⟩ _).1 (by norm_num [abs_lt]),
   (setMotors_deadband ⟨5, -9 / 100, none⟩ _).1 (by norm_num [abs_lt]),
   (setMotors_deadband ⟨5, 1 / 10, none⟩ _).2.1 (by norm_num [le_abs]),
   (setMotors_deadband ⟨5, -1 / 10, none⟩ _).2.1 (by norm_num [le_abs]),
   (setMotors_deadband ⟨5, 3 / 10, none⟩ _).2.1 (by norm_num [le_abs]),
   (setMotors_deadband ⟨5, 3 / 10, none⟩ _).2.2⟩

/-! ## The manual loop -/

/-- C5. Manual loop: `manualLoop` sets the steering command to the steering
stick position, and the thrust command to the negated thrust stick position
when `useForwardReverseSwitch` is enabled and the forward/reverse channel is
below 0, and to the thrust stick position otherwise. -/
theorem manualLoop_commands (c : ControllerCar α) (useForwardReverseSwitch : Bool)
    (radioPosition : Nat → α) (dt : α) :
    (c.manualLoop useForwardReverseSwitch radioPosition dt)._strCmd
      = radioPosition ch_str ∧
    (useForwardReverseSwitch = true → radioPosition ch_FwdRev < 0 →
      (c.manualLoop useForwardReverseSwitch radioPosition dt)._thrustCmd
        = -radioPosition ch_thrust) ∧
    (useForwardReverseSwitch = false ∨ 0 ≤ radioPosition ch_FwdRev →
      (c.manualLoop useForwardReverseSwitch radioPosition dt)._thrustCmd
        = radioPosition ch_thrust) := by
  refine ⟨?_, fun hu hr => ?_, fun h => ?_⟩
  · unfold ControllerCar.manualLoop
    dsimp only
    split <;> rfl
  · simp [ControllerCar.manualLoop, hu, hr]
  · rcases h with h | h
    · simp [ControllerCar.manualLoop, h]
    · have h1 : ¬ radioPosition ch_FwdRev < 0 := not_lt.mpr h
      simp [ControllerCar.manualLoop, h1]

/-- C5 on the scenario values: sticks `(0.7, 0.3)` with the forward/reverse
channel high give `(0.7, 0.3)`; with the channel low and the switch enabled the
thrust command is `-0.3`; with the channel low and the switch disabled it stays
`0.3`. -/
theorem manualLoop_commands_witness :
    ((sampleCar ℚ).manualLoop true (sampleSticks 1) (1 / 50))._strCmd = 7 / 10 ∧
    ((sampleCar ℚ).manualLoop true (sampleSticks 1) (1 / 50))._thrustCmd = 3 / 10 ∧
    ((sampleCar ℚ).manualLoop true (sampleSticks (-1)) (1 / 50))._thrustCmd = -(3 / 10) ∧
    ((sampleCar ℚ).manualLoop false (sampleSticks (-1)) (1 / 50))._thrustCmd = 3 / 10 :=
  ⟨(manualLoop_commands (sampleCar ℚ) true (sampleSticks 1) (1 / 50)).1,
   (manualLoop_commands (sampleCar ℚ) true (sampleSticks 1) (1 / 50)).2.2
     (Or.inr (by norm_num [sampleSticks, ch_FwdRev, ch_str, ch_thrust])),
   (manualLoop_commands (sampleCar ℚ) true (sampleSticks (-1)) (1 / 50)).2.1 rfl
     (by norm_num [sampleSticks, ch_FwdRev, ch_str, ch_thrust]),
   (manualLoop_commands (sampleCar ℚ) false (sampleSticks (-1)) (1 / 50)).2.2 (Or.inl rfl)⟩

/-! ## Inner loops and the shape of the bias -/

/-- The deviation angle is the line `210 - 0.3 * d`. -/
theorem deviationDeg_eq (d : Int) : (deviationDeg d : α) = 210 - 3 / 10 * (d : α) := by
  unfold deviationDeg
  push_cast
  ring

/-- Both commands after `autoLoop`, in closed form. -/
theorem autoLoop_commands (c : ControllerCar α) (deg2Rad : α)
    (pidStr : BlockPIDDfb α) (pidThrust : BlockPID α) (guide : AP_Guide α)
    (nav : AP_Navigator α) (d : Int) (dt : α) :
    (c.autoLoop deg2Rad pidStr pidThrust guide nav d dt)._strCmd
      = pidStr guide.getHeadingError (-nav.getYawRate) dt
        + (if c._rangeFinderFront.isSome = true ∧ 100 ≤ d ∧ d < 650
            then deviationDeg d * deg2Rad else 0) ∧
    (c.autoLoop deg2Rad pidStr pidThrust guide nav d dt)._thrustCmd
      = (if c._rangeFinderFront.isSome = true ∧ d < 100 then 0
          else pidThrust (guide.getGroundSpeedCommand - nav.getGroundSpeed) dt) := by
  rcases hf : c._rangeFinderFront with _ | rF
  · simp [ControllerCar.autoLoop, hf]
  · by_cases h1 : d < 100
    · have h2 : ¬ 100 ≤ d := by omega
      simp [ControllerCar.autoLoop, hf, RangeFinder.read, h1, h2]
    · by_cases h2 : d < 650
      · have h3 : 100 ≤ d := by omega
        simp [ControllerCar.autoLoop, hf, RangeFinder.read, h1, h2, h3]
      · simp [ControllerCar.autoLoop, hf, RangeFinder.read, h1, h2]

/-- On `[100, 650)` the deviation angle lies in `(15, 180]`. -/
theorem deviationDeg_range (d : Int) (hlo : 100 ≤ d) (hhi : d < 650) :
    (15 : α) < deviationDeg d ∧ (deviationDeg d : α) ≤ 180 := by
  have h1 : ((100 : Int) : α) ≤ (d : α) := Int.cast_le.mpr hlo
  have h2 : (d : α) < ((650 : Int) : α) := Int.cast_lt.mpr hhi
  push_cast at h1 h2
  rw [deviationDeg_eq]
  constructor <;> linarith

/-- C8, as amended. Inner-loop inputs: for arbitrary PID blocks, `autoLoop`
computes the steering as `pidStr.update(heading_error, -yaw_rate, dt)`, the
steering block receiving the negated yaw rate as its derivative argument, and
the thrust as `pidThrust.update(ground_speed_command - ground_speed, dt)`; the
commands are these two values after the obstacle override. -/
theorem autoLoop_inner_loop_inputs (c : ControllerCar α) (deg2Rad : α)
    (pidStr : BlockPIDDfb α) (pidThrust : BlockPID α) (guide : AP_Guide α)
    (nav : AP_Navigator α) (d : Int) (dt : α) :
    (c.autoLoop deg2Rad pidStr pidThrust guide nav d dt)._strCmd
      = pidStr guide.getHeadingError (-nav.getYawRate) dt
        + (if c._rangeFinderFront.isSome = true ∧ 100 ≤ d ∧ d < 650
            then deviationDeg d * deg2Rad else 0) ∧
    (c.autoLoop deg2Rad pidStr pidThrust guide nav d dt)._thrustCmd
      = (if c._rangeFinderFront.isSome = true ∧ d < 100 then 0
          else pidThrust (guide.getGroundSpeedCommand - nav.getGroundSpeed) dt) :=
  autoLoop_commands c deg2Rad pidStr pidThrust guide nav d dt

/-- C8 as stated fails: with a yaw rate of 1, a heading error of `0.4` and the
sample steering block, `autoLoop` (no front finder, so no override) commands
`0.5 * 0.4 + 0.05 * (-1) = 0.15`, whereas `pidStr.update(heading_error, yaw_rate,
dt)` is `0.25`. -/
theorem autoLoop_yaw_rate_itself_counterexample :
    ((sampleCarNoFinder ℚ).autoLoop (1 / 57) (samplePidStr ℚ) (samplePidThrust ℚ)
        (sampleGuide ℚ) (sampleNav ℚ 1) 1000 (1 / 50))._strCmd = 3 / 20 ∧
    samplePidStr ℚ (sampleGuide ℚ).getHeadingError (sampleNav ℚ 1).getYawRate (1 / 50) = 1 / 4 ∧
    ((sampleCarNoFinder ℚ).autoLoop (1 / 57) (samplePidStr ℚ) (samplePidThrust ℚ)
        (sampleGuide ℚ) (sampleNav ℚ 1) 1000 (1 / 50))._strCmd
      ≠ samplePidStr ℚ (sampleGuide ℚ).getHeadingError (sampleNav ℚ 1).getYawRate (1 / 50) := by
  norm_num [ControllerCar.autoLoop, sampleCarNoFinder, samplePidStr, sampleGuide, sampleNav]

/-- C9. Shape of the avoidance bias: on readings in `[100, 650)` the deviation
angle that `autoLoop` adds (times `deg2Rad`) is non-increasing in the reading,
lies in `[15, 180]` degrees, stays strictly above 15 degrees, and is 180 degrees
at a reading of 100. -/
theorem deviationDeg_shape :
    (∀ (c : ControllerCar α) (rF : RangeFinder) (deg2Rad : α) (pidStr : BlockPIDDfb α)
        (pidThrust : BlockPID α) (guide : AP_Guide α) (nav : AP_Navigator α) (d : Int) (dt : α),
        c._rangeFinderFront = some rF → 100 ≤ d → d < 650 →
        (c.autoLoop deg2Rad pidStr pidThrust guide nav d dt)._strCmd
          - pidStr guide.getHeadingError (-nav.getYawRate) dt = deviationDeg d * deg2Rad) ∧
    (∀ d1 d2 : Int, 100 ≤ d1 → d1 ≤ d2 → d2 < 650 →
        (deviationDeg d2 : α) ≤ deviationDeg d1) ∧
    (∀ d : Int, 100 ≤ d → d < 650 →
        (15 : α) < deviationDeg d ∧ (deviationDeg d : α) ≤ 180) ∧
    (deviationDeg 100 : α) = 180 := by
  refine ⟨?_, ?_, ?_, ?_⟩
  · intro c rF deg2Rad pidStr pidThrust guide nav d dt hf hlo hhi
    have h1 : ¬ d < 100 := not_lt.mpr hlo
    simp [ControllerCar.autoLoop, hf, RangeFinder.read, h1, hhi]
  · intro d1 d2 _ h12 _
    have h : (d1 : α) ≤ (d2 : α) := Int.cast_le.mpr h12
    rw [deviationDeg_eq, deviationDeg_eq]
    linarith
  · exact fun d hlo hhi => deviationDeg_range d hlo hhi
  · rw [deviationDeg_eq]
    norm_num

/-- C9 on rational values: 180 degrees at 100, 97.5 at 375, 15.3 at the last
reading 649, and the step from 375 to 376 does not increase the angle. -/
theorem deviationDeg_shape_witness :
    (deviationDeg 100 : ℚ) = 180 ∧ (deviationDeg 375 : ℚ) = 195 / 2 ∧
    (15 : ℚ) < deviationDeg 649 ∧ (deviationDeg 376 : ℚ) ≤ deviationDeg 375 :=
  ⟨(deviationDeg_shape).2.2.2, by norm_num [deviationDeg],
   ((deviationDeg_shape).2.2.1 649 (by decide) (by decide)).1,
   (deviationDeg_shape).2.1 375 376 (by decide) (by decide) (by decide)⟩

/-! ## Bounds on the commands -/

/-- C6, as amended. `autoLoop` applies no clamp. For PID outputs of magnitude at
most 1 the thrust command lies in `[-1, 1]`; the steering command lies in
`[-1, 1]` whenever no avoidance bias is added (no front finder, or a reading
below 100 or of at least 650); with a front finder and `100 ≤ d < 650` it is
the steering output plus the bias, unclamped, in
`(-1 + 15 * deg2Rad, 1 + 180 * deg2Rad]`. -/
theorem autoLoop_command_bounds (c : ControllerCar α) (deg2Rad : α)
    (pidStr : BlockPIDDfb α) (pidThrust : BlockPID α) (guide : AP_Guide α)
    (nav : AP_Navigator α) (d : Int) (dt : α)
    (hs : |pidStr guide.getHeadingError (-nav.getYawRate) dt| ≤ 1)
    (ht : |pidThrust (guide.getGroundSpeedCommand - nav.getGroundSpeed) dt| ≤ 1)
    (hpos : 0 < deg2Rad) :
    (c.autoLoop deg2Rad pidStr pidThrust guide nav d dt)._thrustCmd ∈ Set.Icc (-1 : α) 1 ∧
    (¬ (c._rangeFinderFront.isSome = true ∧ 100 ≤ d ∧ d < 650) →
      (c.autoLoop deg2Rad pidStr pidThrust guide nav d dt)._strCmd ∈ Set.Icc (-1 : α) 1) ∧
    (c._rangeFinderFront.isSome = true → 100 ≤ d → d < 650 →
      (c.autoLoop deg2Rad pidStr pidThrust guide nav d dt)._strCmd
        = pidStr guide.getHeadingError (-nav.getYawRate) dt + deviationDeg d * deg2Rad ∧
      (c.autoLoop deg2Rad pidStr pidThrust guide nav d dt)._strCmd
        ∈ Set.Ioc (-1 + 15 * deg2Rad) (1 + 180 * deg2Rad)) := by
  obtain ⟨hstr, hthr⟩ := autoLoop_commands c deg2Rad pidStr pidThrust guide nav d dt
  obtain ⟨hs1, hs2⟩ := abs_le.mp hs
  obtain ⟨ht1, ht2⟩ := abs_le.mp ht
  refine ⟨?_, fun hno => ?_, fun hf hlo hhi => ?_⟩
  · rw [hthr]
    split
    · exact ⟨by norm_num, by norm_num⟩
    · exact ⟨ht1, ht2⟩
  · rw [hstr, if_neg hno, add_zero]
    exact ⟨hs1, hs2⟩
  · rw [hstr, if_pos ⟨hf, hlo, hhi⟩]
    refine ⟨rfl, ?_, ?_⟩
    · have h15 : (15 : α) < deviationDeg d :=
        (deviationDeg_range d hlo hhi).1
      have := mul_lt_mul_of_pos_right h15 hpos
      linarith
    · have h180 : (deviationDeg d : α) ≤ 180 :=
        (deviationDeg_range d hlo hhi).2
      have := mul_le_mul_of_nonneg_right h180 hpos.le
      linarith

/-- C6 as amended, on the sample inputs (`|0.2| ≤ 1`, `|0.5| ≤ 1`): at a reading
of 1000 both commands lie in `[-1, 1]`; at 375 the thrust command still does
and the steering command lies in `(-1 + 15 * deg2Rad, 1 + 180 * deg2Rad]`. -/
theorem autoLoop_command_bounds_witness :
    ((sampleCar ℚ).autoLoop (1 / 57) (samplePidStr ℚ) (samplePidThrust ℚ)
        (sampleGuide ℚ) (sampleNav ℚ 0) 1000 (1 / 50))._thrustCmd ∈ Set.Icc (-1 : ℚ) 1 ∧
    ((sampleCar ℚ).autoLoop (1 / 57) (samplePidStr ℚ) (samplePidThrust ℚ)
        (sampleGuide ℚ) (sampleNav ℚ 0) 1000 (1 / 50))._strCmd ∈ Set.Icc (-1 : ℚ) 1 ∧
    ((sampleCar ℚ).autoLoop (1 / 57) (samplePidStr ℚ) (samplePidThrust ℚ)
        (sampleGuide ℚ) (sampleNav ℚ 0) 375 (1 / 50))._thrustCmd ∈ Set.Icc (-1 : ℚ) 1 ∧
    ((sampleCar ℚ).autoLoop (1 / 57) (samplePidStr ℚ) (samplePidThrust ℚ)
        (sampleGuide ℚ) (sampleNav ℚ 0) 375 (1 / 50))._strCmd
      ∈ Set.Ioc (-1 + 15 * (1 / 57 : ℚ)) (1 + 180 * (1 / 57)) := by
  have hs : |samplePidStr ℚ (sampleGuide ℚ).getHeadingError (-(sampleNav ℚ 0).getYawRate)
      (1 / 50)| ≤ 1 := by
    norm_num [samplePidStr, sampleGuide, sampleNav, abs_le]
  have ht : |samplePidThrust ℚ ((sampleGuide ℚ).getGroundSpeedCommand
      - (sampleNav ℚ 0).getGroundSpeed) (1 / 50)| ≤ 1 := by
    norm_num [samplePidThrust, sampleGuide, sampleNav, abs_le]
  have hfar := autoLoop_command_bounds (sampleCar ℚ) (1 / 57) (samplePidStr ℚ)
    (samplePidThrust ℚ) (sampleGuide ℚ) (sampleNav ℚ 0) 1000 (1 / 50) hs ht (by norm_num)
  have hmid := autoLoop_command_bounds (sampleCar ℚ) (1 / 57) (samplePidStr ℚ)
    (samplePidThrust ℚ) (sampleGuide ℚ) (sampleNav ℚ 0) 375 (1 / 50) hs ht (by norm_num)
  exact ⟨hfar.1, hfar.2.1 (by decide), hmid.1,
    (hmid.2.2 rfl (by decide) (by decide)).2⟩

/-- C6 as stated fails: with `deg2Rad = π / 180`, PID outputs `0.2` and `0.5`
(both of magnitude at most 1), a front finder and a reading of 375, the
steering command after `autoLoop` is `0.2 + 97.5 * π / 180`, which exceeds 1: no
clamp is applied. -/
theorem autoLoop_clamp_counterexample :
    |samplePidStr ℝ (sampleGuide ℝ).getHeadingError (-(sampleNav ℝ 0).getYawRate) (1 / 50)| ≤ 1 ∧
    |samplePidThrust ℝ ((sampleGuide ℝ).getGroundSpeedCommand
        - (sampleNav ℝ 0).getGroundSpeed) (1 / 50)| ≤ 1 ∧
    ((sampleCar ℝ).autoLoop (Real.pi / 180) (samplePidStr ℝ) (samplePidThrust ℝ)
        (sampleGuide ℝ) (sampleNav ℝ 0) 375 (1 / 50))._strCmd
      = 1 / 5 + 195 / 2 * (Real.pi / 180) ∧
    ((sampleCar ℝ).autoLoop (Real.pi / 180) (samplePidStr ℝ) (samplePidThrust ℝ)
        (sampleGuide ℝ) (sampleNav ℝ 0) 375 (1 / 50))._strCmd ∉ Set.Icc (-1 : ℝ) 1 := by
  have hval : ((sampleCar ℝ).autoLoop (Real.pi / 180) (samplePidStr ℝ) (samplePidThrust ℝ)
      (sampleGuide ℝ) (sampleNav ℝ 0) 375 (1 / 50))._strCmd
      = 1 / 5 + 195 / 2 * (Real.pi / 180) := by
    rw [(autoLoop_commands (sampleCar ℝ) (Real.pi / 180) (samplePidStr ℝ) (samplePidThrust ℝ)
      (sampleGuide ℝ) (sampleNav ℝ 0) 375 (1 / 50)).1, deviationDeg_eq]
    norm_num [sampleCar, samplePidStr, sampleGuide, sampleNav]
  refine ⟨?_, ?_, hval, ?_⟩
  · norm_num [samplePidStr, sampleGuide, sampleNav, abs_le]
  · norm_num [samplePidThrust, sampleGuide, sampleNav, abs_le]
  · rw [hval, Set.mem_Icc, not_and_or]
    right
    have hpi := Real.pi_gt_three
    linarith

/-! ## The hard stop and the two loops -/

/-- C7, as amended. The hard stop belongs to the auto loop only. On an auto
tick with a front range finder and a reading in `[0, 99]`, `setMotors` writes 0
to the thrust channel. On a manual tick no obstacle override is applied: the
written thrust is 0 exactly when the thrust stick is inside the deadband,
whatever the front range finder holds. -/
theorem hard_stop_auto_only (c : ControllerCar α) (rF : RangeFinder) (deg2Rad : α)
    (pidStr : BlockPIDDfb α) (pidThrust : BlockPID α) (guide : AP_Guide α)
    (nav : AP_Navigator α) (d : Int) (dt : α) (out : Nat → α)
    (useForwardReverseSwitch : Bool) (radioPosition : Nat → α)
    (hfront : c._rangeFinderFront = some rF) (h0 : 0 ≤ d) (h99 : d ≤ 99) :
    (c.autoLoop deg2Rad pidStr pidThrust guide nav d dt).setMotors out ch_thrust = 0 ∧
    ((c.manualLoop useForwardReverseSwitch radioPosition dt).setMotors out ch_thrust = 0
      ↔ |radioPosition ch_thrust| < 1 / 10) := by
  constructor
  · have hd : d < 100 := by omega
    have hthr := (autoLoop_commands c deg2Rad pidStr pidThrust guide nav d dt).2
    rw [if_pos ⟨by simp [hfront], hd⟩] at hthr
    simp [ControllerCar.setMotors, hthr]
  · have hcases : (c.manualLoop useForwardReverseSwitch radioPosition dt)._thrustCmd
          = radioPosition ch_thrust ∨
        (c.manualLoop useForwardReverseSwitch radioPosition dt)._thrustCmd
          = -radioPosition ch_thrust := by
      unfold ControllerCar.manualLoop
      dsimp only
      split
      · exact Or.inr rfl
      · exact Or.inl rfl
    have habs : |(c.manualLoop useForwardReverseSwitch radioPosition dt)._thrustCmd|
        = |radioPosition ch_thrust| := by
      rcases hcases with h | h <;> rw [h]
      exact abs_neg _
    simp only [ControllerCar.setMotors, Function.update_same, habs]
    constructor
    · intro h
      by_contra hcon
      rw [if_neg hcon] at h
      rw [h, abs_zero] at habs
      exact hcon (by rw [← habs]; norm_num)
    · intro h
      rw [if_pos h]

/-- C7 as amended, on the sample inputs: an auto tick at a reading of 50 writes
thrust 0; a manual tick of the same car with the thrust stick at `0.3` does not
write 0. -/
theorem hard_stop_auto_only_witness :
    ((sampleCar ℚ).autoLoop (1 / 57) (samplePidStr ℚ) (samplePidThrust ℚ)
        (sampleGuide ℚ) (sampleNav ℚ 0) 50 (1 / 50)).setMotors (fun _ => 1) ch_thrust = 0 ∧
    (((sampleCar ℚ).manualLoop true (sampleSticks 1) (1 / 50)).setMotors (fun _ => 1) ch_thrust = 0
      ↔ |sampleSticks 1 ch_thrust| < 1 / 10) :=
  hard_stop_auto_only (sampleCar ℚ) ⟨1, 0, 0, 50⟩ (1 / 57) (samplePidStr ℚ) (samplePidThrust ℚ)
    (sampleGuide ℚ) (sampleNav ℚ 0) 50 (1 / 50) (fun _ => 1) true (sampleSticks 1)
    rfl (by decide) (by decide)

/-- C7 as stated fails on a manual tick: the car has a front range finder whose
latched reading is 50, the thrust stick is at `0.3` with the forward/reverse
channel high, and `setMotors` after `manualLoop` writes `0.3`, not 0, to the
thrust channel. -/
theorem manual_tick_hard_stop_counterexample :
    (sampleCar ℚ)._rangeFinderFront = some ⟨1, 0, 0, 50⟩ ∧
    ((sampleCar ℚ).manualLoop true (sampleSticks 1) (1 / 50)).setMotors (fun _ => 0) ch_thrust
      = 3 / 10 ∧
    ((sampleCar ℚ).manualLoop true (sampleSticks 1) (1 / 50)).setMotors (fun _ => 0) ch_thrust
      ≠ 0 := by
  have h : ((sampleCar ℚ).manualLoop true (sampleSticks 1) (1 / 50)).setMotors (fun _ => 0)
      ch_thrust = 3 / 10 := by
    norm_num [ControllerCar.manualLoop, ControllerCar.setMotors, sampleCar, sampleSticks,
      ch_str, ch_thrust, ch_FwdRev, abs_lt]
  refine ⟨rfl, h, ?_⟩
  rw [h]
  norm_num

/-! ## The constructor -/

/-- The orientation test as a proposition. -/
theorem isFront_iff (rF : RangeFinder) :
    isFront rF = true ↔
      rF.orientation_x = 1 ∧ rF.orientation_y = 0 ∧ rF.orientation_z = 0 := by
  simp [isFront, and_assoc]

/-- With at most 255 entries the eight-bit counter never wraps: started at
`i` with enough fuel, the loop returns the left fold of the loop body over the
entries from `i` on. -/
theorem rangeFinderLoop_eq_foldl (finders : List (Option RangeFinder))
    (hlen : finders.length ≤ 255) :
    ∀ (fuel i : Nat) (front : Option RangeFinder), i ≤ finders.length →
      finders.length - i < fuel →
      rangeFinderLoop finders fuel i front
        = some ((finders.drop i).foldl selectStep front) := by
  intro fuel
  induction fuel with
  | zero => intro i front _ h; omega
  | succ n ih =>
    intro i front hi hfuel
    unfold rangeFinderLoop
    by_cases hlt : i < finders.length
    · have hmod : (i + 1) % 256 = i + 1 := Nat.mod_eq_of_lt (by omega)
      rw [if_pos hlt, hmod, ih (i + 1) _ (by omega) (by omega),
        List.drop_eq_getElem_cons hlt, List.foldl_cons, List.getD_eq_getElem _ _ hlt]
    · have hieq : i = finders.length := by omega
      rw [if_neg hlt, hieq, List.drop_length, List.foldl_nil]

/-- With 256 or more entries the eight-bit counter wraps to 0 before it can
reach the size: the loop condition never fails, whatever the fuel. -/
theorem rangeFinderLoop_wraps (finders : List (Option RangeFinder))
    (hlen : 256 ≤ finders.length) :
    ∀ (fuel i : Nat) (front : Option RangeFinder), i < 256 →
      rangeFinderLoop finders fuel i front = none := by
  intro fuel
  induction fuel with
  | zero => intro i front _; rfl
  | succ n ih =>
    intro i front hi
    unfold rangeFinderLoop
    rw [if_pos (by omega)]
    exact ih _ _ (Nat.mod_lt _ (by norm_num))

/-- What the fold of the loop body computes from a null `_rangeFinderFront`:
either no entry faces front and the result is null, or the result is the last
entry that faces front. -/
theorem foldl_selectStep_none (finders : List (Option RangeFinder)) :
    (finders.foldl selectStep none = none ∧
        ∀ rF, some rF ∈ finders → isFront rF = false) ∨
    ∃ pre rF post, finders = pre ++ some rF :: post ∧ isFront rF = true ∧
      (∀ rF1, some rF1 ∈ post → isFront rF1 = false) ∧
      finders.foldl selectStep none = some rF := by
  induction finders using List.reverseRecOn with
  | nil => exact Or.inl ⟨rfl, by simp⟩
  | append_singleton l e ih =>
    rw [List.foldl_append, List.foldl_cons, List.foldl_nil]
    have hskip : selectStep (l.foldl selectStep none) e = l.foldl selectStep none →
        (∀ rF, e = some rF → isFront rF = false) →
        ((selectStep (l.foldl selectStep none) e = none ∧
            ∀ rF, some rF ∈ l ++ [e] → isFront rF = false) ∨
          ∃ pre rF post, l ++ [e] = pre ++ some rF :: post ∧ isFront rF = true ∧
            (∀ rF1, some rF1 ∈ post → isFront rF1 = false) ∧
            selectStep (l.foldl selectStep none) e = some rF) := by
      intro hstep he
      rw [hstep]
      rcases ih with ⟨hnone, hall⟩ | ⟨pre, rF, post, hsplit, hfront, hpost, hres⟩
      · refine Or.inl ⟨hnone, fun rF hmem => ?_⟩
        rcases List.mem_append.mp hmem with h | h
        · exact hall rF h
        · exact he rF (List.mem_singleton.mp h).symm
      · refine Or.inr ⟨pre, rF, post ++ [e], ?_, hfront, fun rF1 hmem => ?_, hres⟩
        · rw [hsplit, List.append_assoc, List.cons_append]
        · rcases List.mem_append.mp hmem with h | h
          · exact hpost rF1 h
          · exact he rF1 (List.mem_singleton.mp h).symm
    cases e with
    | none => exact hskip rfl (fun rF h => by cases h)
    | some r =>
      by_cases hr : isFront r = true
      · refine Or.inr ⟨l, r, [], rfl, hr, by simp, ?_⟩
        simp [selectStep, hr]
      · have hr1 : isFront r = false := by simpa using hr
        refine hskip (by simp [selectStep, hr1]) (fun rF h => ?_)
        cases h
        exact hr1

/-- C10, as amended. Front range finder selection at construction: for every
vector of at most 255 range finders (entries may be null) the constructor
returns, with both commands 0; `_rangeFinderFront` is non-null if and only if
some non-null entry has orientation `(1, 0, 0)`; and when it is non-null it is an
entry of the vector with exactly that orientation, the last such one. -/
theorem constructor_selects_front (finders : List (Option RangeFinder)) (fuel : Nat)
    (hlen : finders.length ≤ 255) (hfuel : finders.length < fuel) :
    ∃ c : ControllerCar α, ControllerCar.ControllerCar fuel finders = some c ∧
      c._strCmd = 0 ∧ c._thrustCmd = 0 ∧
      (c._rangeFinderFront.isSome = true ↔
        ∃ rF, some rF ∈ finders ∧
          rF.orientation_x = 1 ∧ rF.orientation_y = 0 ∧ rF.orientation_z = 0) ∧
      (∀ rF, c._rangeFinderFront = some rF →
        (rF.orientation_x = 1 ∧ rF.orientation_y = 0 ∧ rF.orientation_z = 0) ∧
        ∃ pre post, finders = pre ++ some rF :: post ∧
          ∀ rF1, some rF1 ∈ post →
            ¬ (rF1.orientation_x = 1 ∧ rF1.orientation_y = 0 ∧ rF1.orientation_z = 0)) := by
  have hloop := rangeFinderLoop_eq_foldl finders hlen fuel 0 none (Nat.zero_le _) (by omega)
  rw [List.drop_zero] at hloop
  refine ⟨⟨0, 0, finders.foldl selectStep none⟩, ?_, rfl, rfl, ?_, ?_⟩
  · simp [ControllerCar.ControllerCar, hloop]
  · rcases foldl_selectStep_none finders with ⟨hnone, hall⟩ | ⟨pre, rF, post, hsplit, hfront, _, hres⟩
    · simp only [hnone, Option.isSome_none, Bool.false_eq_true, false_iff]
      rintro ⟨rF, hmem, hor⟩
      have := hall rF hmem
      rw [(isFront_iff rF).mpr hor] at this
      cases this
    · simp only [hres, Option.isSome_some, true_iff]
      exact ⟨rF, by rw [hsplit]; simp, (isFront_iff rF).mp hfront⟩
  · intro rF hsel
    rcases foldl_selectStep_none finders with ⟨hnone, _⟩ | ⟨pre, rF0, post, hsplit, hfront, hpost, hres⟩
    · rw [hnone] at hsel
      cases hsel
    · rw [hres] at hsel
      cases hsel
      refine ⟨(isFront_iff rF).mp hfront, pre, post, hsplit, fun rF1 hmem hor => ?_⟩
      have := hpost rF1 hmem
      rw [(isFront_iff rF1).mpr hor] at this
      cases this

/-- C10 as amended, on a vector of five entries (a null, a front finder, a
sideways finder, a second front finder, a rear finder): the constructor selects
the second front finder. -/
theorem constructor_selects_front_witness :
    (ControllerCar.ControllerCar 6
        [none, some ⟨1, 0, 0, 10⟩, some ⟨0, 1, 0, 20⟩, some ⟨1, 0, 0, 30⟩, some ⟨-1, 0, 0, 40⟩]
      : Option (ControllerCar ℚ)) = some ⟨0, 0, some ⟨1, 0, 0, 30⟩⟩ ∧
    ∃ c : ControllerCar ℚ, ControllerCar.ControllerCar 6
        [none, some ⟨1, 0, 0, 10⟩, some ⟨0, 1, 0, 20⟩, some ⟨1, 0, 0, 30⟩, some ⟨-1, 0, 0, 40⟩]
        = some c ∧
      c._strCmd = 0 ∧ c._thrustCmd = 0 ∧
      (c._rangeFinderFront.isSome = true ↔
        ∃ rF, some rF ∈ [none, some ⟨1, 0, 0, 10⟩, some ⟨0, 1, 0, 20⟩, some ⟨1, 0, 0, 30⟩,
            some (⟨-1, 0, 0, 40⟩ : RangeFinder)] ∧
          rF.orientation_x = 1 ∧ rF.orientation_y = 0 ∧ rF.orientation_z = 0) ∧
      (∀ rF, c._rangeFinderFront = some rF →
        (rF.orientation_x = 1 ∧ rF.orientation_y = 0 ∧ rF.orientation_z = 0) ∧
        ∃ pre post, [none, some ⟨1, 0, 0, 10⟩, some ⟨0, 1, 0, 20⟩, some ⟨1, 0, 0, 30⟩,
            some (⟨-1, 0, 0, 40⟩ : RangeFinder)] = pre ++ some rF :: post ∧
          ∀ rF1, some rF1 ∈ post →
            ¬ (rF1.orientation_x = 1 ∧ rF1.orientation_y = 0 ∧ rF1.orientation_z = 0)) :=
  ⟨rfl, constructor_selects_front _ 6 (by decide) (by decide)⟩

/-- C10 as stated fails on a vector of 256 entries, a front finder followed
by 255 nulls: the eight-bit loop counter wraps from 255 to 0, the loop
condition `i < 256` never fails, and the constructor does not return for any
amount of fuel, so no `_rangeFinderFront` is ever delivered although an entry
with orientation `(1, 0, 0)` is in the vector. -/
theorem constructor_256_entries_counterexample :
    ¬ ∃ fuel : Nat, (ControllerCar.ControllerCar fuel
        (some ⟨1, 0, 0, 0⟩ :: List.replicate 255 none) : Option (ControllerCar ℚ)).isSome
        = true := by
  rintro ⟨fuel, h⟩
  have hnone := rangeFinderLoop_wraps (some ⟨1, 0, 0, 0⟩ :: List.replicate 255 none)
    (by rw [List.length_cons, List.length_replicate]) fuel 0 none (by norm_num)
  rw [ControllerCar.ControllerCar, hnone] at h
  cases h

end apo
